import Mathlib

/-!
Verification development for xr_examples/track_buttons.py.

The Python program is a linear script: it declares seven XR input actions,
suggests per-profile bindings built from static lookup tables, then runs a
frame loop that polls the action states and prints one formatted line per
hand, breaking on a frame-count limit.  The definitions below are a shallow
embedding of that script: the static tables are transcribed literally, the
pure helper functions (`get_state`, `suggest_bindings`, the output
formatting) become Lean functions over explicit runtime-response oracles,
and the frame loop becomes structural recursion over the list of frames the
runtime yields, producing an event trace.
-/

namespace TrackButtons

/-- Action types of the xr.ActionType enumeration used by the script. -/
inductive ActionType
  | BOOLEAN_INPUT
  | FLOAT_INPUT
  | VECTOR2F_INPUT
  | POSE_INPUT
  | VIBRATION_OUTPUT
deriving DecidableEq

/-- Session states of the xr.SessionState enumeration. -/
inductive SessionState
  | UNKNOWN
  | IDLE
  | READY
  | SYNCHRONIZED
  | VISIBLE
  | FOCUSED
  | STOPPING
  | LOSS_PENDING
  | EXITING
deriving DecidableEq

/-- The seven logical actions created by the script, in the insertion order
of its actions dictionary. -/
inductive ActionName
  | trigger
  | squeeze
  | joystick
  | button_a
  | button_b
  | button_a_touch
  | button_b_touch
deriving DecidableEq

/-- The Python name string of each action. -/
def nameString : ActionName → String
  | ActionName.trigger => "trigger"
  | ActionName.squeeze => "squeeze"
  | ActionName.joystick => "joystick"
  | ActionName.button_a => "button_a"
  | ActionName.button_b => "button_b"
  | ActionName.button_a_touch => "button_a_touch"
  | ActionName.button_b_touch => "button_b_touch"

/-- Dictionary order of the script's `actions` dict. -/
def actionsList : List ActionName :=
  [ActionName.trigger, ActionName.squeeze, ActionName.joystick,
   ActionName.button_a, ActionName.button_b,
   ActionName.button_a_touch, ActionName.button_b_touch]

/-- The action type passed to create_action for each action. -/
def createdActionType (n : ActionName) : ActionType :=
  match n with
  | ActionName.trigger => ActionType.FLOAT_INPUT
  | ActionName.squeeze => ActionType.FLOAT_INPUT
  | ActionName.joystick => ActionType.VECTOR2F_INPUT
  | _ => ActionType.BOOLEAN_INPUT

/-- The action type recomputed inside the polling loop:
FLOAT_INPUT if the name is trigger or squeeze, VECTOR2F_INPUT for joystick,
BOOLEAN_INPUT otherwise. -/
def polledActionType (n : ActionName) : ActionType :=
  if nameString n ∈ (["trigger", "squeeze"] : List String) then
    ActionType.FLOAT_INPUT
  else if nameString n = "joystick" then ActionType.VECTOR2F_INPUT
  else ActionType.BOOLEAN_INPUT

/-- Outcome of one runtime state-query call: either the call raises, or it
returns a state record with an is_active flag and a current_state value. -/
inductive RuntimeResult (α : Type)
  | raises
  | ok (isActive : Bool) (currentState : α)
deriving DecidableEq

/-- The responses the runtime would give to the three possible state-query
calls that get_state can make for one (action, hand) pair. -/
structure QueryOracle where
  floatCall : RuntimeResult ℚ
  boolCall : RuntimeResult Bool
  vec2Call : RuntimeResult (ℚ × ℚ)

/-- A value returned by get_state: a Python 2-tuple, bool, or float. -/
inductive Value
  | vec2 (x y : ℚ)
  | bool (b : Bool)
  | float (q : ℚ)
deriving DecidableEq

/-- Embedding of get_state: dispatch on the action type, make the one
matching runtime call, return current_state when is_active, and collapse a
raised exception to None; action types without a branch fall through to the
implicit None return. -/
def get_state (ty : ActionType) (o : QueryOracle) : Option Value :=
  match ty with
  | ActionType.FLOAT_INPUT =>
    match o.floatCall with
    | RuntimeResult.raises => none
    | RuntimeResult.ok active v =>
      if active then some (Value.float v) else none
  | ActionType.BOOLEAN_INPUT =>
    match o.boolCall with
    | RuntimeResult.raises => none
    | RuntimeResult.ok active v =>
      if active then some (Value.bool v) else none
  | ActionType.VECTOR2F_INPUT =>
    match o.vec2Call with
    | RuntimeResult.raises => none
    | RuntimeResult.ok active v =>
      if active then some (Value.vec2 v.1 v.2) else none
  | _ => none

/-- The runtime entry points get_state can invoke. -/
inductive XrCall
  | getActionStateFloat
  | getActionStateBoolean
  | getActionStateVector2f
deriving DecidableEq

/-- The runtime calls get_state makes for a given action type: one call for
the three handled types, none otherwise. -/
def get_state_calls (ty : ActionType) : List XrCall :=
  match ty with
  | ActionType.FLOAT_INPUT => [XrCall.getActionStateFloat]
  | ActionType.BOOLEAN_INPUT => [XrCall.getActionStateBoolean]
  | ActionType.VECTOR2F_INPUT => [XrCall.getActionStateVector2f]
  | _ => []

/-- Decimal digit character for d mod 10. -/
def digitChar (d : Nat) : Char := Char.ofNat (48 + d % 10)

/-- The prec fraction digits of a scaled natural, most significant first. -/
def fracChars (prec n : Nat) : List Char :=
  (List.range prec).map fun i => digitChar (n / 10 ^ (prec - 1 - i))

/-- Magnitude of q scaled to prec decimal places and rounded to nearest,
modelling the rounding step of Python fixed-point formatting. -/
def fixedScaled (prec : Nat) (q : ℚ) : Nat :=
  (round (|q| * (10 : ℚ) ^ prec)).toNat

/-- Unsigned fixed-point numeral of a scaled natural: integer part, a dot,
then exactly prec fraction digits. -/
def fmtNat (prec n : Nat) : String :=
  Nat.repr (n / 10 ^ prec) ++ "." ++ String.mk (fracChars prec n)

/-- Embedding of a Python .3f-style format: minus sign only when negative. -/
def fmtFixed (prec : Nat) (q : ℚ) : String :=
  if q < 0 then "-" ++ fmtNat prec (fixedScaled prec q)
  else fmtNat prec (fixedScaled prec q)

/-- Embedding of a Python +.2f-style format: always an explicit sign. -/
def fmtSignedFixed (prec : Nat) (q : ℚ) : String :=
  if q < 0 then "-" ++ fmtNat prec (fixedScaled prec q)
  else "+" ++ fmtNat prec (fixedScaled prec q)

/-- How Python prints a bool. -/
def boolStr (b : Bool) : String := if b then "True" else "False"

/-- One labelled part of an output line, as built in the loop body: a
2-tuple prints as a parenthesized signed .2f pair, a bool as True/False, a
float with three decimals, and None as the placeholder. -/
def formatPart (name : String) (v : Option Value) : String :=
  match v with
  | none => name ++ " [---]"
  | some (Value.vec2 x y) =>
    name ++ " [(" ++ fmtSignedFixed 2 x ++ "," ++ fmtSignedFixed 2 y ++ ")]"
  | some (Value.bool b) => name ++ " [" ++ boolStr b ++ "]"
  | some (Value.float q) => name ++ " [" ++ fmtFixed 3 q ++ "]"

/-- Left-justify to width 6, as the hand-name format specifier does. -/
def padTo6 (s : String) : String :=
  s ++ String.mk (List.replicate (6 - s.length) ' ')

/-- The full printed line for one hand: the padded hand name followed by
one formatted part per action, joined by three spaces. -/
def handLine (handName : String) (q : ActionName → QueryOracle) : String :=
  String.intercalate "   "
    (padTo6 handName ::
      actionsList.map fun n =>
        formatPart (nameString n) (get_state (polledActionType n) (q n)))

/-- A string of the shape intPart.fracPart with exactly prec digit
characters after the dot. -/
def fixedTail (prec : Nat) (s : String) : Prop :=
  ∃ (ip : String) (fp : List Char),
    s = ip ++ "." ++ String.mk fp ∧ fp.length = prec ∧
    ∀ c ∈ fp, c.isDigit = true

/-- A fixed-point numeral with a minus sign only when negative. -/
def plainFixed (prec : Nat) (s : String) : Prop :=
  ∃ t, (s = t ∨ s = "-" ++ t) ∧ fixedTail prec t

/-- A fixed-point numeral with an explicit leading sign. -/
def signedFixed (prec : Nat) (s : String) : Prop :=
  ∃ t, (s = "+" ++ t ∨ s = "-" ++ t) ∧ fixedTail prec t

/-- The PROFILES dictionary: interaction profile paths. -/
def PROFILES : List (String × String) :=
  [("khr", "/interaction_profiles/khr/simple_controller"),
   ("index", "/interaction_profiles/valve/index_controller"),
   ("oculus", "/interaction_profiles/oculus/touch_controller"),
   ("vive", "/interaction_profiles/htc/vive_controller"),
   ("wmr", "/interaction_profiles/microsoft/motion_controller")]

/-- TRIGGER_PATHS: component paths per profile as (left, right). -/
def TRIGGER_PATHS : List (String × (String × String)) :=
  [("khr", ("/user/hand/left/input/select/click", "/user/hand/right/input/select/click")),
   ("index", ("/user/hand/left/input/trigger/value", "/user/hand/right/input/trigger/value")),
   ("oculus", ("/user/hand/left/input/trigger/value", "/user/hand/right/input/trigger/value")),
   ("vive", ("/user/hand/left/input/trigger/value", "/user/hand/right/input/trigger/value")),
   ("wmr", ("/user/hand/left/input/trigger/value", "/user/hand/right/input/trigger/value"))]

/-- SQUEEZE_PATHS table. -/
def SQUEEZE_PATHS : List (String × (String × String)) :=
  [("index", ("/user/hand/left/input/squeeze/force", "/user/hand/right/input/squeeze/force")),
   ("oculus", ("/user/hand/left/input/squeeze/value", "/user/hand/right/input/squeeze/value")),
   ("vive", ("/user/hand/left/input/squeeze/click", "/user/hand/right/input/squeeze/click")),
   ("wmr", ("/user/hand/left/input/squeeze/click", "/user/hand/right/input/squeeze/click"))]

/-- JOYSTICK_PATHS table. -/
def JOYSTICK_PATHS : List (String × (String × String)) :=
  [("index", ("/user/hand/left/input/thumbstick", "/user/hand/right/input/thumbstick")),
   ("oculus", ("/user/hand/left/input/thumbstick", "/user/hand/right/input/thumbstick")),
   ("vive", ("/user/hand/left/input/trackpad", "/user/hand/right/input/trackpad")),
   ("wmr", ("/user/hand/left/input/thumbstick", "/user/hand/right/input/thumbstick"))]

/-- BUTTON_A_PATHS table. -/
def BUTTON_A_PATHS : List (String × (String × String)) :=
  [("index", ("/user/hand/left/input/a/click", "/user/hand/right/input/a/click")),
   ("oculus", ("/user/hand/left/input/x/click", "/user/hand/right/input/a/click"))]

/-- BUTTON_B_PATHS table. -/
def BUTTON_B_PATHS : List (String × (String × String)) :=
  [("index", ("/user/hand/left/input/b/click", "/user/hand/right/input/b/click")),
   ("oculus", ("/user/hand/left/input/y/click", "/user/hand/right/input/b/click"))]

/-- BUTTON_A_TOUCH_PATHS table. -/
def BUTTON_A_TOUCH_PATHS : List (String × (String × String)) :=
  [("index", ("/user/hand/left/input/a/touch", "/user/hand/right/input/a/touch")),
   ("oculus", ("/user/hand/left/input/x/touch", "/user/hand/right/input/a/touch"))]

/-- BUTTON_B_TOUCH_PATHS table. -/
def BUTTON_B_TOUCH_PATHS : List (String × (String × String)) :=
  [("index", ("/user/hand/left/input/b/touch", "/user/hand/right/input/b/touch")),
   ("oculus", ("/user/hand/left/input/y/touch", "/user/hand/right/input/b/touch"))]

/-- The seven component-path tables, in source order. -/
def componentTables : List (List (String × (String × String))) :=
  [TRIGGER_PATHS, SQUEEZE_PATHS, JOYSTICK_PATHS, BUTTON_A_PATHS,
   BUTTON_B_PATHS, BUTTON_A_TOUCH_PATHS, BUTTON_B_TOUCH_PATHS]

/-- The module-level dictionary store: PROFILES plus the seven component
tables, as one record so that operations can be stated over it. -/
structure Tables where
  profiles : List (String × String)
  triggerPaths : List (String × (String × String))
  squeezePaths : List (String × (String × String))
  joystickPaths : List (String × (String × String))
  buttonAPaths : List (String × (String × String))
  buttonBPaths : List (String × (String × String))
  buttonATouchPaths : List (String × (String × String))
  buttonBTouchPaths : List (String × (String × String))

/-- The tables as initialised at module load. -/
def initTables : Tables :=
  ⟨PROFILES, TRIGGER_PATHS, SQUEEZE_PATHS, JOYSTICK_PATHS, BUTTON_A_PATHS,
   BUTTON_B_PATHS, BUTTON_A_TOUCH_PATHS, BUTTON_B_TOUCH_PATHS⟩

/-- Iterating a Python 2-tuple of paths yields the left then right path. -/
def pairList (pr : String × String) : List String := [pr.1, pr.2]

/-- The action/path-group pairs the main program passes to suggest_bindings
for one profile, built with dict.get on each component table. -/
def profileActionPairs (t : Tables) (p : String) :
    List (ActionName × Option (List String)) :=
  [(ActionName.trigger, (t.triggerPaths.lookup p).map pairList),
   (ActionName.squeeze, (t.squeezePaths.lookup p).map pairList),
   (ActionName.joystick, (t.joystickPaths.lookup p).map pairList),
   (ActionName.button_a, (t.buttonAPaths.lookup p).map pairList),
   (ActionName.button_b, (t.buttonBPaths.lookup p).map pairList),
   (ActionName.button_a_touch, (t.buttonATouchPaths.lookup p).map pairList),
   (ActionName.button_b_touch, (t.buttonBTouchPaths.lookup p).map pairList)]

/-- The profile iteration order of the binding-suggestion loop. -/
def profileOrder : List String := ["khr", "index", "oculus", "vive", "wmr"]

/-- One call to xr.suggest_interaction_profile_bindings. -/
structure SuggestCall where
  profilePath : String
  countSuggestedBindings : Nat
  bindings : List (ActionName × String)
deriving DecidableEq

/-- The bindings_list built by suggest_bindings: groups that are falsy
(None or empty) are skipped, every path of a truthy group is appended. -/
def bindingsList :
    List (ActionName × Option (List String)) → List (ActionName × String)
  | [] => []
  | (_, none) :: rest => bindingsList rest
  | (a, some l) :: rest =>
    (if l.isEmpty then [] else l.map fun p => (a, p)) ++ bindingsList rest

/-- Embedding of suggest_bindings: build bindings_list, and call the
runtime once with it only when it is non-empty.  The returned list is the
list of runtime calls made. -/
def suggest_bindings (profiles : List (String × String))
    (profile_name : String)
    (action_path_pairs : List (ActionName × Option (List String))) :
    List SuggestCall :=
  let bl := bindingsList action_path_pairs
  if bl.isEmpty then []
  else [⟨(profiles.lookup profile_name).getD "", bl.length, bl⟩]

/-- Number of (action, path) bindings contributed by the non-None groups. -/
def totalBindings (pairs : List (ActionName × Option (List String))) : Nat :=
  (pairs.map fun pr =>
    match pr.2 with
    | none => 0
    | some l => l.length).sum

/-- The runtime calls the program makes outside the state queries. -/
inductive RuntimeCall
  | createAction (name : String) (ty : ActionType)
  | suggestProfile (c : SuggestCall)
  | syncActionsCall

/-- Program state threaded through the script's phases: the module-level
tables plus the log of runtime calls made so far. -/
structure ProgramState where
  tables : Tables
  calls : List RuntimeCall

/-- The action-creation phase: seven create_action calls, in dict order. -/
def createActionsPhase (s : ProgramState) : ProgramState :=
  { s with
    calls := s.calls ++ actionsList.map fun n =>
      RuntimeCall.createAction (nameString n) (createdActionType n) }

/-- The binding-suggestion phase: one suggest_bindings call per profile,
reading the module-level tables. -/
def suggestPhase (s : ProgramState) : ProgramState :=
  { s with
    calls := s.calls ++ profileOrder.flatMap fun p =>
      (suggest_bindings s.tables.profiles p (profileActionPairs s.tables p)).map
        RuntimeCall.suggestProfile }

/-- What the runtime presents to one iteration of the frame loop: the
session state the context reports, and the query responses per hand. -/
structure FrameInput where
  sessionState : SessionState
  left : ActionName → QueryOracle
  right : ActionName → QueryOracle

/-- Observable events of one loop iteration. -/
inductive Ev
  | syncActions
  | printLine (s : String)
  | sleepMs (n : Nat)
  | checkLimit (idx : Nat) (stop : Bool)

/-- Event trace of one iteration of the frame loop: when the session is
FOCUSED, sync actions and print one line per hand; then unconditionally
sleep 0.5 s and test the frame-count limit; print the blank separator only
when the limit did not stop the loop. -/
def iterTrace (idx : Nat) (f : FrameInput) : List Ev :=
  (if f.sessionState = SessionState.FOCUSED then
    [Ev.syncActions,
     Ev.printLine (handLine "LEFT" f.left),
     Ev.printLine (handLine "RIGHT" f.right)]
  else []) ++
  [Ev.sleepMs 500, Ev.checkLimit idx (decide (10 ≤ idx))] ++
  (if 10 ≤ idx then [] else [Ev.printLine ""])

/-- Aggregate result of running the frame loop. -/
structure LoopResult where
  itersExecuted : Nat
  polledCount : Nat
  sessionWasFocused : Bool
  trace : List Ev

/-- The frame loop from a given enumerate index and flag value: process the
next yielded frame, and stop after the iteration whose index reaches 10. -/
def runLoopFrom : Nat → Bool → List FrameInput → LoopResult
  | _, flag, [] => ⟨0, 0, flag, []⟩
  | idx, flag, f :: rest =>
    let focused : Bool := f.sessionState = SessionState.FOCUSED
    let flag1 := flag || focused
    if 10 ≤ idx then
      ⟨1, if focused then 1 else 0, flag1, iterTrace idx f⟩
    else
      let r := runLoopFrom (idx + 1) flag1 rest
      ⟨r.itersExecuted + 1, (if focused then 1 else 0) + r.polledCount,
       r.sessionWasFocused, iterTrace idx f ++ r.trace⟩

/-- The frame loop as the script runs it: enumerate from 0, flag False. -/
def runLoop (frames : List FrameInput) : LoopResult :=
  runLoopFrom 0 false frames

/-- The warning text printed when the session never focused. -/
def warningString : String :=
  "\nWarning: Session never reached FOCUSED state."

/-- The lines the final conditional prints after the loop. -/
def warningLines (frames : List FrameInput) : List String :=
  if (runLoop frames).sessionWasFocused then [] else [warningString]

/-- The frame-loop phase over the threaded program state: it records the
sync_actions calls of the trace and touches nothing else of the state. -/
def framePhase (frames : List FrameInput) (s : ProgramState) : ProgramState :=
  { s with
    calls := s.calls ++ (runLoop frames).trace.filterMap fun e =>
      match e with
      | Ev.syncActions => some RuntimeCall.syncActionsCall
      | _ => none }

/-- An oracle whose every call raises. -/
def raisingOracle : QueryOracle :=
  ⟨RuntimeResult.raises, RuntimeResult.raises, RuntimeResult.raises⟩

/-- An oracle whose every call reports an inactive input. -/
def inactiveOracle : QueryOracle :=
  ⟨RuntimeResult.ok false 0, RuntimeResult.ok false false,
   RuntimeResult.ok false (0, 0)⟩

/-- A frame whose session is FOCUSED. -/
def focusedFrame : FrameInput :=
  ⟨SessionState.FOCUSED, fun _ => raisingOracle, fun _ => raisingOracle⟩

/-- A frame whose session is IDLE. -/
def idleFrame : FrameInput :=
  ⟨SessionState.IDLE, fun _ => raisingOracle, fun _ => raisingOracle⟩

/-- A run in which the runtime yields twelve FOCUSED frames. -/
def focusedRun : List FrameInput := List.replicate 12 focusedFrame

/-- A run in which the runtime yields twelve IDLE frames. -/
def idleRun : List FrameInput := List.replicate 12 idleFrame

/-- Modelled from the spec: the input namespace of each interaction profile
(the set of binding paths valid for that controller), which the spec calls
"that profile's declared namespace".  These sets are declared by the OpenXR
interaction-profile definitions, not by any code of this repository, so
they are transcribed here from those definitions.  Helper for the paths
present on both hands. -/
def bothHands (suffixes : List String) : List String :=
  suffixes.flatMap fun c =>
    ["/user/hand/left/input/" ++ c, "/user/hand/right/input/" ++ c]

/-- Modelled from the spec: left-hand-only input paths of a profile. -/
def leftOnly (suffixes : List String) : List String :=
  suffixes.map fun c => "/user/hand/left/input/" ++ c

/-- Modelled from the spec: right-hand-only input paths of a profile. -/
def rightOnly (suffixes : List String) : List String :=
  suffixes.map fun c => "/user/hand/right/input/" ++ c

/-- Modelled from the spec: haptic output paths, present on every profile. -/
def hapticPaths : List String :=
  ["/user/hand/left/output/haptic", "/user/hand/right/output/haptic"]

/-- Modelled from the spec: the declared input namespace of each profile
named in PROFILES, keyed by the script's short profile name. -/
def VALID_INPUT_PATHS : List (String × List String) :=
  [("khr",
    bothHands ["select/click", "menu/click", "grip/pose", "aim/pose"] ++
      hapticPaths),
   ("index",
    bothHands
      ["system/click", "system/touch", "a/click", "a/touch", "b/click",
       "b/touch", "squeeze/value", "squeeze/force", "trigger/click",
       "trigger/value", "trigger/touch", "thumbstick", "thumbstick/x",
       "thumbstick/y", "thumbstick/click", "thumbstick/touch", "trackpad",
       "trackpad/x", "trackpad/y", "trackpad/force", "trackpad/touch",
       "grip/pose", "aim/pose"] ++ hapticPaths),
   ("oculus",
    leftOnly ["x/click", "x/touch", "y/click", "y/touch", "menu/click"] ++
      rightOnly ["a/click", "a/touch", "b/click", "b/touch", "system/click"] ++
      bothHands
        ["squeeze/value", "trigger/value", "trigger/touch", "thumbstick",
         "thumbstick/x", "thumbstick/y", "thumbstick/click",
         "thumbstick/touch", "thumbrest/touch", "grip/pose", "aim/pose"] ++
      hapticPaths),
   ("vive",
    bothHands
      ["system/click", "squeeze/click", "menu/click", "trigger/click",
       "trigger/value", "trackpad", "trackpad/x", "trackpad/y",
       "trackpad/click", "trackpad/touch", "grip/pose", "aim/pose"] ++
      hapticPaths),
   ("wmr",
    bothHands
      ["menu/click", "squeeze/click", "trigger/value", "thumbstick",
       "thumbstick/x", "thumbstick/y", "thumbstick/click", "trackpad",
       "trackpad/x", "trackpad/y", "trackpad/click", "trackpad/touch",
       "grip/pose", "aim/pose"] ++ hapticPaths)]

/-- The declared namespace of one profile. -/
def validPathsFor (p : String) : List String :=
  (VALID_INPUT_PATHS.lookup p).getD []

/-- A concrete pair list with one truthy and one None group. -/
def demoPairs : List (ActionName × Option (List String)) :=
  [(ActionName.trigger,
    some ["/user/hand/left/input/select/click",
          "/user/hand/right/input/select/click"]),
   (ActionName.squeeze, none)]

/-- A concrete pair list whose groups are all None or empty. -/
def emptyPairs : List (ActionName × Option (List String)) :=
  [(ActionName.trigger, none), (ActionName.squeeze, some ([] : List String))]

end TrackButtons

namespace TrackButtons

theorem digitChar_isDigit (d : Nat) : (digitChar d).isDigit = true := by
  have h : d % 10 < 10 := Nat.mod_lt _ (by norm_num)
  unfold digitChar
  revert h
  generalize d % 10 = r
  intro h
  interval_cases r <;> decide

theorem fracChars_length (prec n : Nat) : (fracChars prec n).length = prec := by
  simp [fracChars]

theorem fracChars_digits (prec n : Nat) :
    ∀ c ∈ fracChars prec n, c.isDigit = true := by
  intro c hc
  simp only [fracChars, List.mem_map] at hc
  obtain ⟨i, _, rfl⟩ := hc
  exact digitChar_isDigit _

theorem fmtNat_fixedTail (prec n : Nat) : fixedTail prec (fmtNat prec n) :=
  ⟨Nat.repr (n / 10 ^ prec), fracChars prec n, rfl,
    fracChars_length prec n, fracChars_digits prec n⟩

theorem fmtFixed_plainFixed (prec : Nat) (q : ℚ) :
    plainFixed prec (fmtFixed prec q) := by
  refine ⟨fmtNat prec (fixedScaled prec q), ?_, fmtNat_fixedTail _ _⟩
  unfold fmtFixed
  by_cases h : q < 0 <;> simp [h]

theorem fmtSignedFixed_signedFixed (prec : Nat) (q : ℚ) :
    signedFixed prec (fmtSignedFixed prec q) := by
  refine ⟨fmtNat prec (fixedScaled prec q), ?_, fmtNat_fixedTail _ _⟩
  unfold fmtSignedFixed
  by_cases h : q < 0 <;> simp [h]

theorem str_append_assoc (a b c : String) : a ++ b ++ c = a ++ (b ++ c) := by
  apply String.ext
  simp [String.data_append]

/-- C2: whenever the runtime call underlying a state query raises, get_state
returns None, the printing code shows the placeholder for that control, and
get_state makes at most one runtime call, so nothing is retried. -/
theorem errors_collapse_to_placeholder (ty : ActionType) (o : QueryOracle)
    (name : String) (hf : o.floatCall = RuntimeResult.raises)
    (hb : o.boolCall = RuntimeResult.raises)
    (hv : o.vec2Call = RuntimeResult.raises) :
    get_state ty o = none ∧
    formatPart name (get_state ty o) = name ++ " [---]" ∧
    (get_state_calls ty).length ≤ 1 := by
  have h : get_state ty o = none := by
    cases ty <;> simp [get_state, hf, hb, hv]
  refine ⟨h, by rw [h]; rfl, ?_⟩
  cases ty <;> simp [get_state_calls]

theorem errors_collapse_to_placeholder_witness :
    get_state ActionType.FLOAT_INPUT raisingOracle = none ∧
    formatPart "trigger" (get_state ActionType.FLOAT_INPUT raisingOracle) =
      "trigger" ++ " [---]" ∧
    (get_state_calls ActionType.FLOAT_INPUT).length ≤ 1 :=
  errors_collapse_to_placeholder ActionType.FLOAT_INPUT raisingOracle
    "trigger" rfl rfl rfl

/-- C3: the printed representation of a get_state value matches the value
type: a 2-tuple prints as a parenthesized signed two-decimal pair, a bool
prints as True or False, a float prints with three decimals, and None
prints as the placeholder. -/
theorem printed_format_matches_value_type (name : String) (v : Option Value) :
    (v = none → formatPart name v = name ++ " [---]") ∧
    (∀ x y, v = some (Value.vec2 x y) →
      ∃ s1 s2,
        formatPart name v = name ++ " [(" ++ s1 ++ "," ++ s2 ++ ")]" ∧
        signedFixed 2 s1 ∧ signedFixed 2 s2) ∧
    (∀ b, v = some (Value.bool b) →
      formatPart name v = name ++ " [True]" ∨
      formatPart name v = name ++ " [False]") ∧
    (∀ q, v = some (Value.float q) →
      ∃ s, formatPart name v = name ++ " [" ++ s ++ "]" ∧ plainFixed 3 s) := by
  refine ⟨fun h => by subst h; rfl, ?_, ?_, ?_⟩
  · intro x y h
    subst h
    exact ⟨fmtSignedFixed 2 x, fmtSignedFixed 2 y, rfl,
      fmtSignedFixed_signedFixed 2 x, fmtSignedFixed_signedFixed 2 y⟩
  · intro b h
    subst h
    cases b
    · right
      show name ++ " [" ++ boolStr false ++ "]" = _
      rw [str_append_assoc, str_append_assoc]
      exact congrArg (fun s => name ++ s) rfl
    · left
      show name ++ " [" ++ boolStr true ++ "]" = _
      rw [str_append_assoc, str_append_assoc]
      exact congrArg (fun s => name ++ s) rfl
  · intro q h
    subst h
    exact ⟨fmtFixed 3 q, rfl, fmtFixed_plainFixed 3 q⟩

theorem printed_format_matches_value_type_witness :
    ∃ s, formatPart "trigger" (some (Value.float (1 / 2))) =
        "trigger" ++ " [" ++ s ++ "]" ∧ plainFixed 3 s :=
  (printed_format_matches_value_type "trigger"
    (some (Value.float (1 / 2)))).2.2.2 (1 / 2) rfl

/-- C8: get_state also returns None when the reported state is inactive and
for the action types outside the three handled ones, so the placeholder
cannot distinguish an inactive input from a failed query. -/
theorem get_state_none_beyond_errors (o : QueryOracle) :
    (∀ q, o.floatCall = RuntimeResult.ok false q →
      get_state ActionType.FLOAT_INPUT o = none) ∧
    (∀ b, o.boolCall = RuntimeResult.ok false b →
      get_state ActionType.BOOLEAN_INPUT o = none) ∧
    (∀ v, o.vec2Call = RuntimeResult.ok false v →
      get_state ActionType.VECTOR2F_INPUT o = none) ∧
    (∀ ty, ty ≠ ActionType.FLOAT_INPUT → ty ≠ ActionType.BOOLEAN_INPUT →
      ty ≠ ActionType.VECTOR2F_INPUT → get_state ty o = none) ∧
    (∀ name, formatPart name none = name ++ " [---]") := by
  refine ⟨?_, ?_, ?_, ?_, fun name => rfl⟩
  · intro q h; simp [get_state, h]
  · intro b h; simp [get_state, h]
  · intro v h; simp [get_state, h]
  · intro ty h1 h2 h3
    cases ty <;> simp_all [get_state]

theorem get_state_none_beyond_errors_witness :
    get_state ActionType.FLOAT_INPUT inactiveOracle = none :=
  (get_state_none_beyond_errors inactiveOracle).1 0 rfl

/-- C5: every entry of every component-path table is an ordered pair whose
first element lies under the left-hand user path and whose second element
lies under the right-hand user path. -/
theorem component_tables_pair_left_right :
    ∀ t ∈ componentTables, ∀ e ∈ t,
      "/user/hand/left".data.isPrefixOf (e.2.1).data = true ∧
      "/user/hand/right".data.isPrefixOf (e.2.2).data = true := by decide

theorem component_tables_pair_left_right_witness :
    "/user/hand/left".data.isPrefixOf
        ("/user/hand/left/input/select/click" : String).data = true ∧
    "/user/hand/right".data.isPrefixOf
        ("/user/hand/right/input/select/click" : String).data = true :=
  component_tables_pair_left_right TRIGGER_PATHS (by decide)
    ("khr", ("/user/hand/left/input/select/click",
      "/user/hand/right/input/select/click")) (by decide)

/-- C4: for every profile the binding-suggestion loop handles, every path
of every binding suggested for that profile belongs to that profile's
declared input namespace. -/
theorem bindings_within_profile_namespace :
    ∀ p ∈ profileOrder,
      ∀ c ∈ suggest_bindings PROFILES p (profileActionPairs initTables p),
        ∀ b ∈ c.bindings, b.2 ∈ validPathsFor p := by decide

theorem bindings_within_profile_namespace_witness :
    ("/user/hand/left/input/select/click" : String) ∈ validPathsFor "khr" :=
  bindings_within_profile_namespace "khr" (by decide)
    ⟨"/interaction_profiles/khr/simple_controller", 2,
      [(ActionName.trigger, "/user/hand/left/input/select/click"),
       (ActionName.trigger, "/user/hand/right/input/select/click")]⟩
    (by decide)
    (ActionName.trigger, "/user/hand/left/input/select/click") (by decide)

theorem bindingsList_length
    (pairs : List (ActionName × Option (List String))) :
    (bindingsList pairs).length = totalBindings pairs := by
  induction pairs with
  | nil => rfl
  | cons pr rest ih =>
    obtain ⟨a, ps⟩ := pr
    cases ps with
    | none => simpa [bindingsList, totalBindings] using ih
    | some l =>
      by_cases hl : l.isEmpty
      · have hnil : l = [] := by simpa using hl
        subst hnil
        simpa [bindingsList, totalBindings] using ih
      · simp only [bindingsList, totalBindings, hl, if_neg, Bool.false_eq_true,
          not_false_eq_true, List.length_append, List.length_map,
          List.map_cons, List.sum_cons] at *
        omega

theorem bindingsList_empty_of_all_falsy
    (pairs : List (ActionName × Option (List String)))
    (h : ∀ pr ∈ pairs, pr.2 = none ∨ pr.2 = some []) :
    bindingsList pairs = [] := by
  induction pairs with
  | nil => rfl
  | cons pr rest ih =>
    obtain ⟨a, ps⟩ := pr
    have hrest := ih fun x hx => h x (List.mem_cons_of_mem _ hx)
    rcases h (a, ps) (List.mem_cons_self _ _) with h1 | h1 <;>
      simp only at h1 <;> subst h1 <;> simpa [bindingsList] using hrest

/-- C9: suggest_bindings calls the runtime at most once; it makes no call
when every path group is None or empty, the count it passes equals the
number of bindings built from the non-None groups, and a call implies some
group was truthy. -/
theorem suggest_bindings_call_discipline (profiles : List (String × String))
    (profile_name : String)
    (pairs : List (ActionName × Option (List String))) :
    (suggest_bindings profiles profile_name pairs).length ≤ 1 ∧
    ((∀ pr ∈ pairs, pr.2 = none ∨ pr.2 = some []) →
      suggest_bindings profiles profile_name pairs = []) ∧
    (∀ c ∈ suggest_bindings profiles profile_name pairs,
      c.countSuggestedBindings = totalBindings pairs) ∧
    (suggest_bindings profiles profile_name pairs ≠ [] →
      ∃ pr ∈ pairs, ∃ l, pr.2 = some l ∧ l ≠ []) := by
  refine ⟨?_, ?_, ?_, ?_⟩
  · unfold suggest_bindings
    by_cases h : (bindingsList pairs).isEmpty <;> simp [h]
  · intro h
    simp [suggest_bindings, bindingsList_empty_of_all_falsy pairs h]
  · intro c hc
    unfold suggest_bindings at hc
    by_cases h : (bindingsList pairs).isEmpty
    · simp [h] at hc
    · simp only [h, Bool.false_eq_true, if_neg, not_false_eq_true,
        List.mem_singleton] at hc
      subst hc
      exact bindingsList_length pairs
  · intro hne
    by_contra hall
    push_neg at hall
    apply hne
    have hfalsy : ∀ pr ∈ pairs, pr.2 = none ∨ pr.2 = some [] := by
      intro pr hpr
      cases hps : pr.2 with
      | none => exact Or.inl rfl
      | some l =>
        have hl : l = [] := hall pr hpr l hps
        exact Or.inr (by rw [hl])
    simp [suggest_bindings, bindingsList_empty_of_all_falsy pairs hfalsy]

theorem suggest_bindings_call_discipline_witness :
    suggest_bindings PROFILES "khr" emptyPairs = [] ∧
    (suggest_bindings PROFILES "khr" demoPairs).length ≤ 1 :=
  ⟨(suggest_bindings_call_discipline PROFILES "khr" emptyPairs).2.1
      (by decide),
    (suggest_bindings_call_discipline PROFILES "khr" demoPairs).1⟩

/-- C1 (failing input): on a run in which the runtime yields at least
eleven frames, the frame loop executes its body eleven times, with indices
0 through 10, before the frame-count break fires, and polls and prints on
all eleven of those frames when the session is FOCUSED throughout; the
iteration count is the same when the session never leaves IDLE.  The module
docstring and the spec say the loop runs for ten frames. -/
theorem frame_loop_executes_eleven_iterations :
    (runLoop focusedRun).itersExecuted = 11 ∧
    (runLoop focusedRun).polledCount = 11 ∧
    (runLoop idleRun).itersExecuted = 11 ∧
    (runLoop idleRun).polledCount = 0 := by
  refine ⟨?_, ?_, ?_, ?_⟩ <;> rfl

/-- C6: none of the program phases — action creation, binding suggestion,
or the frame loop — modifies the module-level lookup tables. -/
theorem tables_never_mutated (s : ProgramState) (frames : List FrameInput) :
    (createActionsPhase s).tables = s.tables ∧
    (suggestPhase s).tables = s.tables ∧
    (framePhase frames s).tables = s.tables :=
  ⟨rfl, rfl, rfl⟩

/-- C7: every iteration of the frame loop contains exactly one sleep event,
of 500 milliseconds, and it occurs before the frame-count limit check;
no check occurs before the sleep; this holds whatever the session state
and the frame index. -/
theorem each_iteration_sleeps_once_before_limit_check
    (idx : Nat) (f : FrameInput) :
    ∃ pre post,
      iterTrace idx f =
        pre ++ Ev.sleepMs 500 ::
          Ev.checkLimit idx (decide (10 ≤ idx)) :: post ∧
      (∀ e ∈ pre, ∀ n, e ≠ Ev.sleepMs n) ∧
      (∀ e ∈ post, ∀ n, e ≠ Ev.sleepMs n) ∧
      (∀ e ∈ pre, ∀ j b, e ≠ Ev.checkLimit j b) := by
  unfold iterTrace
  by_cases hf : f.sessionState = SessionState.FOCUSED <;>
    by_cases hi : 10 ≤ idx
  · refine ⟨[Ev.syncActions, Ev.printLine (handLine "LEFT" f.left),
      Ev.printLine (handLine "RIGHT" f.right)], [],
      by simp [hf, hi], ?_, ?_, ?_⟩
    · intro e he n; fin_cases he <;> simp
    · intro e he; simp at he
    · intro e he j b; fin_cases he <;> simp
  · refine ⟨[Ev.syncActions, Ev.printLine (handLine "LEFT" f.left),
      Ev.printLine (handLine "RIGHT" f.right)], [Ev.printLine ""],
      by simp [hf, hi], ?_, ?_, ?_⟩
    · intro e he n; fin_cases he <;> simp
    · intro e he n; fin_cases he; simp
    · intro e he j b; fin_cases he <;> simp
  · refine ⟨[], [], by simp [hf, hi], ?_, ?_, ?_⟩
    · intro e he; simp at he
    · intro e he; simp at he
    · intro e he; simp at he
  · refine ⟨[], [Ev.printLine ""], by simp [hf, hi], ?_, ?_, ?_⟩
    · intro e he; simp at he
    · intro e he n; fin_cases he; simp
    · intro e he; simp at he

theorem runLoopFrom_focusedFlag (frames : List FrameInput) :
    ∀ idx flag, idx ≤ 10 →
      (runLoopFrom idx flag frames).sessionWasFocused =
        (flag || (frames.take (11 - idx)).any
          fun g => decide (g.sessionState = SessionState.FOCUSED)) := by
  induction frames with
  | nil => intro idx flag h; simp [runLoopFrom]
  | cons f rest ih =>
    intro idx flag h
    by_cases h10 : 10 ≤ idx
    · have hidx : idx = 10 := le_antisymm h h10
      subst hidx
      simp [runLoopFrom, List.take]
    · have hsub : 11 - idx = (11 - (idx + 1)) + 1 := by omega
      rw [hsub]
      simp only [runLoopFrom, h10, if_neg, not_false_eq_true,
        List.take_succ_cons, List.any_cons]
      rw [ih (idx + 1) _ (by omega)]
      rw [Bool.or_assoc]

/-- C10: the final warning line is printed if and only if no executed
iteration of the frame loop (the first eleven yielded frames at most)
observed the session state FOCUSED. -/
theorem warning_iff_never_focused (frames : List FrameInput) :
    warningLines frames = [warningString] ↔
      ∀ f ∈ frames.take 11, f.sessionState ≠ SessionState.FOCUSED := by
  unfold warningLines runLoop
  rw [runLoopFrom_focusedFlag frames 0 false (by omega)]
  simp only [Nat.sub_zero, Bool.false_or]
  constructor
  · intro hw f hf hfoc
    have hany : ((frames.take 11).any
        fun g => decide (g.sessionState = SessionState.FOCUSED)) = true :=
      List.any_eq_true.mpr ⟨f, hf, by simp [hfoc]⟩
    rw [hany] at hw
    simp at hw
  · intro hall
    have hany : ((frames.take 11).any
        fun g => decide (g.sessionState = SessionState.FOCUSED)) = false := by
      cases hc : (frames.take 11).any
          fun g => decide (g.sessionState = SessionState.FOCUSED) with
      | false => rfl
      | true =>
        obtain ⟨f, hf, hfoc⟩ := List.any_eq_true.mp hc
        exact absurd (by simpa using hfoc) (hall f hf)
    rw [hany]
    simp

end TrackButtons
